import Mathlib

/-
  Verification development for the FarmersMark Vertex RAG chat app.

  The backend (Express server, `server/index.ts`) is shallowly embedded as
  pure Lean functions: the two outbound Vertex calls (retrieveContexts and
  generateContent) are modelled by the `FetchResult` their `fetch` returns,
  carried in an `Env` record together with the environment configuration and
  the access token; the `/api/chat` handler becomes a total function from the
  request body and that environment to an HTTP response, instrumented with
  a trace of whether retrieval was reached and which arguments the generation
  helper was invoked with.  The React chat surface (`src/App.tsx`) is embedded
  as a state-transition function on the component state, parameterised by the
  outcome of its single fetch.
-/

namespace FarmersMark

/- ===== Data model (server/index.ts, lines 6-7) ===== -/

inductive Role where
  | user
  | assistant
  deriving DecidableEq

structure Turn where
  role : Role
  content : String
  deriving DecidableEq

structure RetrievedContext where
  text : String
  sourceUri : String
  deriving DecidableEq

/-- The JavaScript `String.prototype.trim()` used throughout the source:
strip leading and trailing whitespace.  (Defined over the character list so
that it reduces in the kernel; Lean's own `String.trim` is byte-position
based and does not.) -/
def jsTrim (s : String) : String :=
  String.mk (((s.data.dropWhile Char.isWhitespace).reverse.dropWhile Char.isWhitespace).reverse)

/-- JavaScript `s.slice(0, n)`: the first `n` characters (the whole string
when it is shorter).  (Defined over the character list so that it reduces in
the kernel.) -/
def jsSlice (s : String) (n : Nat) : String :=
  String.mk (s.data.take n)

/- ===== JS numeric coercion used by the VERTEX_RAG_TOP_K line ===== -/

/-- A JavaScript number as far as the `Math.max(1, Number(...))` line needs:
either NaN or an exact rational value. `Number("abc")` is `JSNumber.nan`;
`Number` of a decimal literal string is `JSNumber.num` of its value; the
unset-variable default `?? 4` is `JSNumber.num 4`. -/
inductive JSNumber where
  | nan
  | num (q : ℚ)
  deriving DecidableEq

/-- JavaScript `Math.max` on two arguments: NaN-propagating maximum. -/
def jsMax (a b : JSNumber) : JSNumber :=
  match a, b with
  | .nan, _ => .nan
  | _, .nan => .nan
  | .num x, .num y => .num (max x y)

/-- server/index.ts line 15: `Math.max(1, Number(process.env.VERTEX_RAG_TOP_K ?? 4))`,
as a function of the already-coerced environment value (the coercion `Number`
is a JS builtin; its output, including NaN for non-numeric strings and
`num 4` for an unset variable, is the argument). -/
def vertexRagTopK (parsed : JSNumber) : JSNumber :=
  jsMax (.num 1) parsed

/- ===== Configuration and collaborator environment ===== -/

/-- The four required connection parameters (empty string models an
absent/blank environment variable, matching the falsiness test in the
source). -/
structure VertexConfig where
  project : String
  location : String
  model : String
  corpus : String
  deriving DecidableEq

/-- server/index.ts lines 33-46: `requireVertexConfig`. Throwing is modelled
by `Except.error` carrying the thrown message. -/
def requireVertexConfig (cfg : VertexConfig) : Except String Unit :=
  if cfg.project = "" then .error "GOOGLE_CLOUD_PROJECT is required."
  else if cfg.location = "" then .error "GOOGLE_CLOUD_LOCATION is required."
  else if cfg.model = "" then .error "VERTEX_MODEL is required."
  else if cfg.corpus = "" then .error "VERTEX_RAG_CORPUS is required."
  else .ok ()

/-- The thrown message of `getAccessToken` when no token is obtainable
(server/index.ts line 28). -/
def tokenErrorMessage : String :=
  "Could not obtain Google access token. Run \x27gcloud auth application-default login\x27."

/-- server/index.ts lines 23-31: `getAccessToken`, as a function of the
token the auth client yields (`none` models an absent/empty token). -/
def getAccessToken (token : Option String) : Except String String :=
  match token with
  | none => .error tokenErrorMessage
  | some t => .ok t

/-- The observable part of a `fetch` response: `ok`, `status`,
`response.text()` and the already-parsed `response.json()` payload. -/
structure FetchResult (α : Type) where
  ok : Bool
  status : Nat
  bodyText : String
  payload : α
  deriving DecidableEq

/-- One item of the retrieveContexts JSON payload
(server/index.ts lines 78-82): both fields optional. -/
structure RawItem where
  text : Option String
  sourceUri : Option String
  deriving DecidableEq

/-- The inner `contexts` wrapper of the retrieveContexts payload. -/
structure ContextsWrap where
  contexts : Option (List RawItem)
  deriving DecidableEq

/-- The retrieveContexts JSON payload: `{ contexts?: { contexts?: [...] } }`. -/
structure RetrievePayload where
  contexts : Option ContextsWrap
  deriving DecidableEq

/-- server/index.ts line 84: `payload.contexts?.contexts ?? []`. -/
def rawItemsOf (p : RetrievePayload) : List RawItem :=
  (p.contexts.bind ContextsWrap.contexts).getD []

/-- One part of a generateContent candidate (`{ text?: string }`). -/
structure GenPart where
  text : Option String
  deriving DecidableEq

/-- The `content` of a generateContent candidate (`{ parts?: [...] }`). -/
structure CandContent where
  parts : Option (List GenPart)
  deriving DecidableEq

/-- One generateContent candidate (`{ content?: ... }`). -/
structure Candidate where
  content : Option CandContent
  deriving DecidableEq

/-- The generateContent JSON payload (`{ candidates?: [...] }`; an absent
candidates array is modelled by the empty list, which the optional-chaining
in the source treats identically). -/
structure GenPayload where
  candidates : List Candidate
  deriving DecidableEq

/-- The whole collaborator environment one `/api/chat` request runs against:
configuration, the access token the auth client yields, the configured topK,
and the two fetch responses the external Vertex endpoints would return. -/
structure Env where
  cfg : VertexConfig
  token : Option String
  topK : JSNumber
  retrievalFetch : FetchResult RetrievePayload
  generationFetch : FetchResult GenPayload

/- ===== retrieveFromVertexCorpus (server/index.ts lines 48-91) ===== -/

/-- server/index.ts lines 85-90: map each raw payload item to a
`RetrievedContext` (`item.text?.trim() ?? ""`,
`item.sourceUri?.trim() ?? "unknown-source"`), then drop items whose text is
empty. -/
def mapRetrieved (items : List RawItem) : List RetrievedContext :=
  (items.map (fun item =>
    { text := (item.text.map jsTrim).getD ""
      sourceUri := (item.sourceUri.map jsTrim).getD "unknown-source" : RetrievedContext })
  ).filter (fun item => decide (0 < item.text.length))

/-- server/index.ts lines 48-91: `retrieveFromVertexCorpus`. The query and
topK only shape the outbound request body, which is external; the function's
result is determined by the config check, the token, and the fetch response. -/
def retrieveFromVertexCorpus (env : Env) (_query : String) (_topK : JSNumber) :
    Except String (List RetrievedContext) :=
  match requireVertexConfig env.cfg with
  | .error e => .error e
  | .ok _ =>
    match getAccessToken env.token with
    | .error e => .error e
    | .ok _ =>
      if env.retrievalFetch.ok then
        .ok (mapRetrieved (rawItemsOf env.retrievalFetch.payload))
      else
        .error ("Vertex retrieveContexts failed: " ++ toString env.retrievalFetch.status
          ++ " " ++ env.retrievalFetch.bodyText)

/- ===== fallbackAnswer (server/index.ts lines 93-107) ===== -/

/-- The fixed no-context message (server/index.ts line 95). -/
def noContextMessage : String :=
  "I could not retrieve relevant context from the configured Vertex corpus. Try rephrasing your question."

/-- The fixed notice of the extractive branch (server/index.ts line 104). -/
def extractiveNotice : String :=
  "No model response was generated, so this answer is extractive from corpus matches:"

/-- server/index.ts lines 93-107: `fallbackAnswer`. Each preview snippet is
`(${idx + 1}) ${chunk.text.slice(0, 280).trim()}...`; the three sections and
the snippets are joined with blank lines. -/
def fallbackAnswer (question : String) (contexts : List RetrievedContext) : String :=
  if contexts.length = 0 then
    noContextMessage
  else
    let preview := String.intercalate "\n\n"
      (contexts.mapIdx (fun idx chunk =>
        "(" ++ toString (idx + 1) ++ ") " ++ jsTrim (jsSlice chunk.text 280) ++ "..."))
    String.intercalate "\n\n" ["Question: " ++ question, extractiveNotice, preview]

/-- The spec sentence for the non-empty branch, taken literally: snippets are
the context text truncated to 280 characters with an ellipsis suffix, with no
trimming of the slice.  (Second definition for the refinement comparison with
`fallbackAnswer`; it is NOT translated from the source.) -/
def fallbackAnswerClaimed (question : String) (contexts : List RetrievedContext) : String :=
  let preview := String.intercalate "\n\n"
    (contexts.mapIdx (fun idx chunk =>
      "(" ++ toString (idx + 1) ++ ") " ++ jsSlice chunk.text 280 ++ "..."))
  String.intercalate "\n\n" ["Question: " ++ question, extractiveNotice, preview]

/-- The amended spec sentence for the non-empty branch: each snippet is the
context text truncated to at most 280 characters, trimmed of surrounding
whitespace, with an ellipsis suffix. -/
def fallbackAnswerAmended (question : String) (contexts : List RetrievedContext) : String :=
  let preview := String.intercalate "\n\n"
    (contexts.mapIdx (fun idx chunk =>
      "(" ++ toString (idx + 1) ++ ") " ++ jsTrim (jsSlice chunk.text 280) ++ "..."))
  String.intercalate "\n\n" ["Question: " ++ question, extractiveNotice, preview]

/- ===== generateWithVertex (server/index.ts lines 109-161) ===== -/

/-- One `parts` entry of a Vertex content object. -/
structure VertexPart where
  text : String
  deriving DecidableEq

/-- One entry of the `contents` array sent to generateContent. -/
structure VertexContent where
  role : String
  parts : List VertexPart
  deriving DecidableEq

/-- server/index.ts lines 117-120: map one history turn to the Vertex role
vocabulary (`assistant` becomes `model`, anything else `user`). -/
def toVertexContent (t : Turn) : VertexContent :=
  { role := if t.role = Role.assistant then "model" else "user"
    parts := [{ text := t.content }] }

/-- server/index.ts line 143: the `contents` array of the generateContent
request: the role-mapped history followed by the current user turn. -/
def vertexContents (message : String) (history : List Turn) : List VertexContent :=
  history.map toVertexContent ++ [{ role := "user", parts := [{ text := message }] }]

/-- server/index.ts line 159: extract the first candidate's concatenated part
texts, trimmed — `none` models the `undefined` the optional chaining yields
when a link of the chain is missing. -/
def extractText (p : GenPayload) : Option String :=
  match p.candidates.head? with
  | none => none
  | some c =>
    match c.content with
    | none => none
    | some ct =>
      match ct.parts with
      | none => none
      | some parts => some (jsTrim (String.join (parts.map (fun pt => pt.text.getD ""))))

/-- server/index.ts line 160: `text || "I do not have an answer."` —
the substitute is used when the chain yielded `undefined` or the trimmed
text is empty. -/
def answerOf (p : GenPayload) : String :=
  match extractText p with
  | none => "I do not have an answer."
  | some t => if t = "" then "I do not have an answer." else t

/-- server/index.ts lines 109-161: `generateWithVertex`. The message,
history and prompt context only shape the outbound request, which is
external; the result is determined by the config check, the token, and the
generation fetch response. -/
def generateWithVertex (env : Env) (_message : String) (_history : List Turn)
    (_promptContext : String) : Except String String :=
  match requireVertexConfig env.cfg with
  | .error e => .error e
  | .ok _ =>
    match getAccessToken env.token with
    | .error e => .error e
    | .ok _ =>
      if env.generationFetch.ok then
        .ok (answerOf env.generationFetch.payload)
      else
        .error ("Vertex generateContent failed: " ++ toString env.generationFetch.status
          ++ " " ++ env.generationFetch.bodyText)

/- ===== the /api/chat handler (server/index.ts lines 182-208) ===== -/

/-- The `/api/chat` request body: both fields optional; `history := none`
also models a non-array value, which the `Array.isArray` test rejects. -/
structure ChatBody where
  message : Option String
  history : Option (List Turn)

/-- server/index.ts line 185: `(body.message ?? "").trim()`. -/
def messageOf (body : ChatBody) : String :=
  jsTrim (body.message.getD "")

/-- JavaScript `array.slice(-n)`: the last `n` elements (the whole list when
it is shorter). -/
def lastN (n : Nat) (l : List Turn) : List Turn :=
  l.drop (l.length - n)

/-- server/index.ts line 192:
`Array.isArray(body.history) ? body.history.slice(-8) : []`. -/
def historyOf (body : ChatBody) : List Turn :=
  lastN 8 (body.history.getD [])

/-- The recursion of `dedupFS`, carrying the set of already-seen elements:
an element is kept exactly when it has not been seen before. -/
def dedupAux (seen : List String) : List String → List String
  | [] => []
  | x :: xs => if x ∈ seen then dedupAux seen xs else x :: dedupAux (x :: seen) xs

/-- First-seen-order deduplication, the semantics of
`Array.from(new Set(...))` on server/index.ts line 194: keep the first
occurrence of each element, drop the later duplicates. -/
def dedupFS (l : List String) : List String := dedupAux [] l

/-- server/index.ts line 201: the prompt context string
`[Chunk i] <text>` joined by blank lines. -/
def promptContextOf (contexts : List RetrievedContext) : String :=
  String.intercalate "\n\n"
    (contexts.mapIdx (fun i x => "[Chunk " ++ toString (i + 1) ++ "] " ++ x.text))

/-- The three response shapes the `/api/chat` handler produces. -/
inductive HttpResponse where
  | json200 (answer : String) (sources : List String)
  | json400 (error : String)
  | json500 (error : String)
  deriving DecidableEq

/-- The arguments the handler passes to `generateWithVertex`
(server/index.ts line 202). -/
structure GenArgs where
  message : String
  history : List Turn
  promptContext : String
  deriving DecidableEq

/-- The handler's observable behaviour on one request: its HTTP response,
whether the retrieval helper was invoked, and the arguments of the
generation helper invocation when one happened. -/
structure HandlerTrace where
  response : HttpResponse
  retrievalCalled : Bool
  genCall : Option GenArgs

/-- The contexts a successful retrieval fetch yields for this environment
(the `contexts` local of the handler). -/
def retrievedContexts (env : Env) : List RetrievedContext :=
  mapRetrieved (rawItemsOf env.retrievalFetch.payload)

/-- server/index.ts lines 182-208: the `/api/chat` handler.  A thrown error
anywhere in the try block (modelled by `Except.error`) is caught and becomes
a 500 response carrying the error message. -/
def handleChat (env : Env) (body : ChatBody) : HandlerTrace :=
  if messageOf body = "" then
    { response := .json400 "message is required", retrievalCalled := false, genCall := none }
  else
    match retrieveFromVertexCorpus env (messageOf body) env.topK with
    | .error e => { response := .json500 e, retrievalCalled := true, genCall := none }
    | .ok contexts =>
      if contexts.length = 0 then
        { response := .json200 (fallbackAnswer (messageOf body) contexts)
            (dedupFS (contexts.map RetrievedContext.sourceUri))
          retrievalCalled := true, genCall := none }
      else
        match generateWithVertex env (messageOf body) (historyOf body)
            (promptContextOf contexts) with
        | .error e =>
          { response := .json500 e, retrievalCalled := true
            genCall := some ⟨messageOf body, historyOf body, promptContextOf contexts⟩ }
        | .ok answer =>
          { response := .json200 answer (dedupFS (contexts.map RetrievedContext.sourceUri))
            retrievalCalled := true
            genCall := some ⟨messageOf body, historyOf body, promptContextOf contexts⟩ }

/- ===== Chat surface (src/App.tsx) ===== -/

/-- src/App.tsx lines 5-10: a transcript message. -/
structure Message where
  id : String
  role : Role
  content : String
  sources : Option (List String)
  deriving DecidableEq

/-- src/App.tsx line 17: the placeholder greeting. -/
def starter : String := "Ask anything about the attached Vertex AI RAG notes."

/-- src/App.tsx lines 12-15: the parsed `/api/chat` response. -/
structure ChatResponseData where
  answer : String
  sources : List String
  deriving DecidableEq

/-- The component state of `App`: the transcript, the input field, the
loading flag, and the cancellation handle held in `abortRef` (`some ()`
models a retained `AbortController`, `none` a null ref). -/
structure SurfaceState where
  messages : List Message
  input : String
  loading : Bool
  abortRef : Option Unit
  deriving DecidableEq

/-- src/App.tsx line 28: the memoised transcript — every message except the
assistant placeholder with the exact starter text. -/
def transcriptOf (msgs : List Message) : List Message :=
  msgs.filter (fun m => decide (m.role ≠ Role.assistant) || decide (m.content ≠ starter))

/-- The body of the fetch issued by `onSubmit`
(src/App.tsx lines 54-57). -/
structure SubmitRequest where
  message : String
  history : List Turn
  deriving DecidableEq

/-- How the awaited fetch of `onSubmit` completes: parsed response data on
success, or the error text of the caught exception (a network failure, the
`Request failed: <status>` error thrown on a non-ok status, or the abort
raised by the stop control). -/
inductive FetchOutcome where
  | success (data : ChatResponseData)
  | failure (text : String)
  deriving DecidableEq

/-- src/App.tsx lines 30-88: `onSubmit`, from the pre-submit component state
(and the two generated message ids) to the post-completion state, together
with the request body when a request was issued.  The early return on an
empty input or an in-flight request issues no request and leaves the state
unchanged.  On a submission, the user message is appended, the input is
cleared, and the request history is the transcript memoised from the
PRE-submit messages; the outcome appends the assistant message (answer and
sources on success, the apology plus error text on failure); the `finally`
block then clears the loading flag and releases the abort handle on every
path. -/
def onSubmit (s : SurfaceState) (uid aid : String) (outcome : FetchOutcome) :
    SurfaceState × Option SubmitRequest :=
  if jsTrim s.input = "" ∨ s.loading then (s, none)
  else
    let trimmed := jsTrim s.input
    let userMessage : Message := { id := uid, role := .user, content := trimmed, sources := none }
    let nextMessages := s.messages ++ [userMessage]
    let request : SubmitRequest :=
      { message := trimmed
        history := (transcriptOf s.messages).map (fun m => { role := m.role, content := m.content }) }
    let finalMessages :=
      match outcome with
      | .success data =>
        nextMessages ++ [{ id := aid, role := .assistant, content := data.answer
                           sources := some data.sources }]
      | .failure text =>
        nextMessages ++ [{ id := aid, role := .assistant
                           content := "I could not process that request. " ++ text
                           sources := none }]
    ({ messages := finalMessages, input := "", loading := false, abortRef := none },
      some request)

/- ===== Concrete example inputs used by the witnesses ===== -/

/-- A fully-populated configuration. -/
def exCfg : VertexConfig :=
  { project := "farmersmark-agriculture", location := "us-west1"
    model := "gemini-2.5-flash", corpus := "corpus-1" }

/-- A retrieval payload with one usable item. -/
def exPayloadOne : RetrievePayload :=
  { contexts := some { contexts := some [{ text := some "Irrigate twice weekly", sourceUri := some "doc1.pdf" }] } }

/-- A retrieval payload with no items. -/
def exPayloadEmpty : RetrievePayload :=
  { contexts := some { contexts := some [] } }

/-- A retrieval payload whose one item has no sourceUri. -/
def exPayloadNoUri : RetrievePayload :=
  { contexts := some { contexts := some [{ text := some "Rotate crops yearly", sourceUri := none }] } }

/-- A generation payload with one candidate carrying answer text. -/
def exGenPayload : GenPayload :=
  { candidates := [{ content := some { parts := some [{ text := some "Twice weekly." }] } }] }

/-- An environment where both calls succeed and retrieval yields one context. -/
def exEnvOk : Env :=
  { cfg := exCfg, token := some "tok", topK := .num 4
    retrievalFetch := { ok := true, status := 200, bodyText := "", payload := exPayloadOne }
    generationFetch := { ok := true, status := 200, bodyText := "", payload := exGenPayload } }

/-- An environment whose retrieval succeeds with zero contexts. -/
def exEnvEmpty : Env :=
  { exEnvOk with retrievalFetch := { ok := true, status := 200, bodyText := "", payload := exPayloadEmpty } }

/-- An environment whose retrieval fetch fails with a 503. -/
def exEnvRetrFail : Env :=
  { exEnvOk with retrievalFetch := { ok := false, status := 503, bodyText := "busy", payload := exPayloadEmpty } }

/-- An environment whose generation fetch fails with a 500. -/
def exEnvGenFail : Env :=
  { exEnvOk with generationFetch := { ok := false, status := 500, bodyText := "boom", payload := exGenPayload } }

/-- An environment whose one retrieved item has no sourceUri. -/
def exEnvNoUri : Env :=
  { exEnvOk with retrievalFetch := { ok := true, status := 200, bodyText := "", payload := exPayloadNoUri } }

/-- A ten-turn history. -/
def exHist10 : List Turn :=
  [⟨.user, "q0"⟩, ⟨.assistant, "a0"⟩, ⟨.user, "q1"⟩, ⟨.assistant, "a1"⟩,
   ⟨.user, "q2"⟩, ⟨.assistant, "a2"⟩, ⟨.user, "q3"⟩, ⟨.assistant, "a3"⟩,
   ⟨.user, "q4"⟩, ⟨.assistant, "a4"⟩]

/-- A request body with a message and the ten-turn history. -/
def exBody10 : ChatBody := { message := some "What irrigation schedule?", history := some exHist10 }

/-- A request body with a message and no history. -/
def exBodyHi : ChatBody := { message := some "Hi", history := none }

/-- A request body with no message. -/
def exBodyNoMsg : ChatBody := { message := none, history := none }

/-- A retrieval payload with a duplicated sourceUri. -/
def exPayloadDup : RetrievePayload :=
  { contexts := some
      { contexts := some [{ text := some "Irrigate twice weekly", sourceUri := some "doc1.pdf" }, { text := some "Mulch in spring", sourceUri := some "doc1.pdf" }, { text := some "Rotate crops", sourceUri := some "doc2.pdf" }] } }

/-- An environment whose retrieval yields three contexts over two sources. -/
def exEnvDup : Env :=
  { exEnvOk with retrievalFetch := { ok := true, status := 200, bodyText := "", payload := exPayloadDup } }

/- ===== Helper lemmas ===== -/

/-- The index of the first occurrence of `a` in a list (the length when `a`
is absent); the yardstick for the first-seen ordering of `dedupFS`. -/
def firstIdx (a : String) : List String → Nat
  | [] => 0
  | x :: xs => if x = a then 0 else firstIdx a xs + 1

theorem mem_dedupAux (l : List String) :
    ∀ (seen : List String) (a : String), a ∈ dedupAux seen l ↔ a ∈ l ∧ a ∉ seen := by
  induction l with
  | nil => intro seen a; simp [dedupAux]
  | cons x xs ih =>
    intro seen a
    by_cases hx : x ∈ seen
    · rw [dedupAux, if_pos hx, ih]
      constructor
      · rintro ⟨h1, h2⟩; exact ⟨List.mem_cons_of_mem _ h1, h2⟩
      · rintro ⟨h1, h2⟩
        rcases List.mem_cons.mp h1 with rfl | h1
        · exact absurd hx h2
        · exact ⟨h1, h2⟩
    · rw [dedupAux, if_neg hx]
      simp only [List.mem_cons, ih, List.mem_cons]
      constructor
      · rintro (rfl | ⟨h1, h2⟩)
        · exact ⟨Or.inl rfl, hx⟩
        · exact ⟨Or.inr h1, fun hs => h2 (Or.inr hs)⟩
      · rintro ⟨rfl | h1, h2⟩
        · exact Or.inl rfl
        · by_cases hax : a = x
          · exact Or.inl hax
          · exact Or.inr ⟨h1, fun hs => h2 (hs.resolve_left hax)⟩

theorem nodup_dedupAux (l : List String) : ∀ seen : List String, (dedupAux seen l).Nodup := by
  induction l with
  | nil => intro seen; simp [dedupAux]
  | cons x xs ih =>
    intro seen
    by_cases hx : x ∈ seen
    · rw [dedupAux, if_pos hx]; exact ih seen
    · rw [dedupAux, if_neg hx]
      rw [List.nodup_cons]
      refine ⟨fun hmem => ?_, ih _⟩
      exact ((mem_dedupAux xs (x :: seen) x).mp hmem).2 (List.mem_cons_self _ _)

theorem pairwise_firstIdx_dedupAux (l : List String) :
    ∀ seen : List String,
      (dedupAux seen l).Pairwise (fun a b => firstIdx a l < firstIdx b l) := by
  induction l with
  | nil => intro seen; simp [dedupAux]
  | cons x xs ih =>
    intro seen
    by_cases hx : x ∈ seen
    · rw [dedupAux, if_pos hx]
      refine List.Pairwise.imp_of_mem ?_ (ih seen)
      intro a b ha hb hab
      have ha' := (mem_dedupAux xs seen a).mp ha
      have hb' := (mem_dedupAux xs seen b).mp hb
      have hax : ¬ x = a := fun h => ha'.2 (h ▸ hx)
      have hbx : ¬ x = b := fun h => hb'.2 (h ▸ hx)
      rw [firstIdx, if_neg hax, firstIdx, if_neg hbx]
      exact Nat.succ_lt_succ hab
    · rw [dedupAux, if_neg hx]
      rw [List.pairwise_cons]
      constructor
      · intro b hb
        have hb' := (mem_dedupAux xs (x :: seen) b).mp hb
        have hbx : ¬ x = b := fun h => hb'.2 (h ▸ List.mem_cons_self x seen)
        rw [firstIdx, if_pos rfl, firstIdx, if_neg hbx]
        exact Nat.succ_pos _
      · refine List.Pairwise.imp_of_mem ?_ (ih (x :: seen))
        intro a b ha hb hab
        have ha' := (mem_dedupAux xs (x :: seen) a).mp ha
        have hb' := (mem_dedupAux xs (x :: seen) b).mp hb
        have hax : ¬ x = a := fun h => ha'.2 (h ▸ List.mem_cons_self x seen)
        have hbx : ¬ x = b := fun h => hb'.2 (h ▸ List.mem_cons_self x seen)
        rw [firstIdx, if_neg hax, firstIdx, if_neg hbx]
        exact Nat.succ_lt_succ hab

theorem dedupFS_nodup (l : List String) : (dedupFS l).Nodup :=
  nodup_dedupAux l []

theorem mem_dedupFS (l : List String) (a : String) : a ∈ dedupFS l ↔ a ∈ l := by
  rw [dedupFS, mem_dedupAux]
  simp

theorem dedupFS_pairwise_firstIdx (l : List String) :
    (dedupFS l).Pairwise (fun a b => firstIdx a l < firstIdx b l) :=
  pairwise_firstIdx_dedupAux l []

theorem retrieve_ok_eq {env : Env} {q : String} {k : JSNumber} {contexts : List RetrievedContext}
    (h : retrieveFromVertexCorpus env q k = .ok contexts) :
    contexts = retrievedContexts env := by
  unfold retrieveFromVertexCorpus at h
  split at h
  · cases h
  · split at h
    · cases h
    · split at h
      · cases h; rfl
      · cases h

theorem handleChat_200_sources {env : Env} {body : ChatBody} {ans : String} {srcs : List String}
    (h : (handleChat env body).response = .json200 ans srcs) :
    srcs = dedupFS ((retrievedContexts env).map RetrievedContext.sourceUri) := by
  unfold handleChat at h
  split at h
  · simp at h
  · split at h
    · simp at h
    · rename_i contexts heq
      rw [retrieve_ok_eq heq] at h
      split at h
      · simp at h
        exact h.2.symm
      · split at h
        · simp at h
        · simp at h
          exact h.2.symm

theorem answerOf_ne_empty (p : GenPayload) : answerOf p ≠ "" := by
  unfold answerOf
  split
  · decide
  · split
    · decide
    · rename_i ht
      exact ht

theorem generate_ok_eq {env : Env} {m : String} {hist : List Turn} {pc : String} {ans : String}
    (h : generateWithVertex env m hist pc = .ok ans) :
    ans = answerOf env.generationFetch.payload := by
  unfold generateWithVertex at h
  split at h
  · cases h
  · split at h
    · cases h
    · split at h
      · cases h; rfl
      · cases h

/-- Filtering after mapping is mapping after filtering on the composed
predicate. -/
theorem filter_comm_map {α β : Type} (g : α → β) (p : β → Bool) (l : List α) :
    (l.map g).filter p = (l.filter (fun a => p (g a))).map g := by
  induction l with
  | nil => rfl
  | cons a as ih =>
    simp only [List.map_cons, List.filter_cons]
    by_cases h : p (g a)
    · simp [h, ih]
    · simp [h, ih]

/- ===== Claim theorems ===== -/

/-- Claim C1: when the message is non-empty after trimming and the retrieval
call succeeds with zero contexts, the handler answers 200 with the fixed
no-context message and an empty sources list, and the generation collaborator
is not called. -/
theorem chat_empty_contexts_fallback (env : Env) (body : ChatBody) (tok : String)
    (hmsg : messageOf body ≠ "") (hcfg : requireVertexConfig env.cfg = .ok ())
    (htok : env.token = some tok) (hok : env.retrievalFetch.ok = true)
    (hempty : retrievedContexts env = []) :
    handleChat env body =
      { response := .json200 noContextMessage [], retrievalCalled := true, genCall := none } := by
  have hE : retrieveFromVertexCorpus env (messageOf body) env.topK = .ok [] := by
    simp only [retrieveFromVertexCorpus, hcfg, htok, getAccessToken, hok, if_true]
    rw [show mapRetrieved (rawItemsOf env.retrievalFetch.payload) = retrievedContexts env from rfl,
      hempty]
  unfold handleChat
  rw [if_neg hmsg, hE]
  rfl

set_option maxRecDepth 8000 in
/-- Claim C1 witness: a concrete environment whose retrieval yields zero
contexts. -/
theorem chat_empty_contexts_fallback_witness :
    messageOf exBodyHi ≠ "" ∧ requireVertexConfig exEnvEmpty.cfg = .ok () ∧
    exEnvEmpty.token = some "tok" ∧ exEnvEmpty.retrievalFetch.ok = true ∧
    retrievedContexts exEnvEmpty = [] ∧
    handleChat exEnvEmpty exBodyHi =
      { response := .json200 noContextMessage [], retrievalCalled := true, genCall := none } :=
  ⟨by decide, rfl, rfl, rfl, rfl,
    chat_empty_contexts_fallback exEnvEmpty exBodyHi "tok" (by decide) rfl rfl rfl rfl⟩

/-- Claim C2: whenever the generation collaborator is invoked, the history it
receives has length at most eight and is a suffix of the provided history
(the most recent turns, in original order). -/
theorem chat_history_truncated (env : Env) (body : ChatBody) (args : GenArgs)
    (h : (handleChat env body).genCall = some args) :
    args.history.length ≤ 8 ∧ List.IsSuffix args.history (body.history.getD []) ∧
      args.history = historyOf body := by
  have hargs : args.history = historyOf body := by
    unfold handleChat at h
    split at h
    · simp at h
    · split at h
      · simp at h
      · split at h
        · simp at h
        · split at h
          · simp at h
            exact congrArg GenArgs.history h.symm
          · simp at h
            exact congrArg GenArgs.history h.symm
  refine ⟨?_, ?_, hargs⟩
  · rw [hargs]
    unfold historyOf lastN
    rw [List.length_drop]
    omega
  · rw [hargs]
    unfold historyOf lastN
    exact List.drop_suffix _ _

set_option maxRecDepth 8000 in
/-- Claim C2 witness: a ten-turn history is cut to its last eight turns. -/
theorem chat_history_truncated_witness :
    (handleChat exEnvOk exBody10).genCall =
      some ⟨"What irrigation schedule?", lastN 8 exHist10, "[Chunk 1] Irrigate twice weekly"⟩ ∧
    ((lastN 8 exHist10).length ≤ 8 ∧
      List.IsSuffix (lastN 8 exHist10) (exBody10.history.getD []) ∧
      lastN 8 exHist10 = historyOf exBody10) :=
  ⟨rfl, chat_history_truncated exEnvOk exBody10
    ⟨"What irrigation schedule?", lastN 8 exHist10, "[Chunk 1] Irrigate twice weekly"⟩ rfl⟩

/-- Claim C3: every 200 response's sources list holds each distinct retrieved
sourceUri exactly once (no duplicates, same membership as the retrieved
uris), ordered by first occurrence in the retrieved list. -/
theorem chat_sources_dedup_first_seen (env : Env) (body : ChatBody) (ans : String)
    (srcs : List String)
    (h : (handleChat env body).response = .json200 ans srcs) :
    srcs.Nodup ∧
    (∀ u, u ∈ srcs ↔ u ∈ (retrievedContexts env).map RetrievedContext.sourceUri) ∧
    srcs.Pairwise (fun a b =>
      firstIdx a ((retrievedContexts env).map RetrievedContext.sourceUri) <
      firstIdx b ((retrievedContexts env).map RetrievedContext.sourceUri)) := by
  rw [handleChat_200_sources h]
  exact ⟨dedupFS_nodup _, fun u => mem_dedupFS _ u, dedupFS_pairwise_firstIdx _⟩

set_option maxRecDepth 20000 in
/-- Claim C3 witness: duplicated doc1.pdf collapses to one entry, first-seen
order preserved. -/
theorem chat_sources_dedup_first_seen_witness :
    (handleChat exEnvDup exBodyHi).response =
      HttpResponse.json200 "Twice weekly." ["doc1.pdf", "doc2.pdf"] ∧
    ((["doc1.pdf", "doc2.pdf"] : List String).Nodup ∧
    (∀ u, u ∈ (["doc1.pdf", "doc2.pdf"] : List String) ↔
      u ∈ (retrievedContexts exEnvDup).map RetrievedContext.sourceUri) ∧
    (["doc1.pdf", "doc2.pdf"] : List String).Pairwise (fun a b =>
      firstIdx a ((retrievedContexts exEnvDup).map RetrievedContext.sourceUri) <
      firstIdx b ((retrievedContexts exEnvDup).map RetrievedContext.sourceUri))) :=
  ⟨rfl, chat_sources_dedup_first_seen exEnvDup exBodyHi "Twice weekly."
    ["doc1.pdf", "doc2.pdf"] rfl⟩

/-- Claim C4: a message that is absent or trims to empty yields a 400
response with the fixed error, and neither the retrieval nor the generation
call is performed. -/
theorem chat_empty_message_400 (env : Env) (body : ChatBody) (h : messageOf body = "") :
    handleChat env body =
      { response := .json400 "message is required", retrievalCalled := false, genCall := none } := by
  unfold handleChat
  rw [if_pos h]

/-- Claim C4 witness: the request body with no message field. -/
theorem chat_empty_message_400_witness :
    messageOf exBodyNoMsg = "" ∧
    handleChat exEnvOk exBodyNoMsg =
      { response := .json400 "message is required", retrievalCalled := false, genCall := none } :=
  ⟨rfl, chat_empty_message_400 exEnvOk exBodyNoMsg rfl⟩

/-- Claim C5: a non-success retrieval fetch aborts the request as a 500
carrying the status and body text in the error message (and generation is
never reached); a non-success generation fetch likewise surfaces as a 500
carrying its status and body text. -/
theorem chat_upstream_error_500 (envR envG : Env) (body : ChatBody) (tokR tokG : String)
    (hmsg : messageOf body ≠ "")
    (hcfgR : requireVertexConfig envR.cfg = .ok ()) (htokR : envR.token = some tokR)
    (hRfail : envR.retrievalFetch.ok = false)
    (hcfgG : requireVertexConfig envG.cfg = .ok ()) (htokG : envG.token = some tokG)
    (hRok : envG.retrievalFetch.ok = true) (hctx : retrievedContexts envG ≠ [])
    (hGfail : envG.generationFetch.ok = false) :
    handleChat envR body =
      { response := .json500 ("Vertex retrieveContexts failed: "
          ++ toString envR.retrievalFetch.status ++ " " ++ envR.retrievalFetch.bodyText)
        retrievalCalled := true, genCall := none } ∧
    (handleChat envG body).response =
      .json500 ("Vertex generateContent failed: "
        ++ toString envG.generationFetch.status ++ " " ++ envG.generationFetch.bodyText) := by
  constructor
  · have hE : retrieveFromVertexCorpus envR (messageOf body) envR.topK =
        .error ("Vertex retrieveContexts failed: "
          ++ toString envR.retrievalFetch.status ++ " " ++ envR.retrievalFetch.bodyText) := by
      simp [retrieveFromVertexCorpus, hcfgR, htokR, getAccessToken, hRfail]
    unfold handleChat
    rw [if_neg hmsg, hE]
  · have hE : retrieveFromVertexCorpus envG (messageOf body) envG.topK =
        .ok (retrievedContexts envG) := by
      simp [retrieveFromVertexCorpus, hcfgG, htokG, getAccessToken, hRok, retrievedContexts]
    have hG : generateWithVertex envG (messageOf body) (historyOf body)
        (promptContextOf (retrievedContexts envG)) =
        .error ("Vertex generateContent failed: "
          ++ toString envG.generationFetch.status ++ " " ++ envG.generationFetch.bodyText) := by
      simp [generateWithVertex, hcfgG, htokG, getAccessToken, hGfail]
    have hlen : ¬ ((retrievedContexts envG).length = 0) :=
      fun hl => hctx (List.length_eq_zero.mp hl)
    unfold handleChat
    rw [if_neg hmsg, hE]
    simp only [hlen, if_false, hG]

set_option maxRecDepth 8000 in
/-- Claim C5 witness: a 503 retrieval failure and a 500 generation failure at
concrete environments. -/
theorem chat_upstream_error_500_witness :
    messageOf exBodyHi ≠ "" ∧ exEnvRetrFail.retrievalFetch.ok = false ∧
    exEnvGenFail.retrievalFetch.ok = true ∧ retrievedContexts exEnvGenFail ≠ [] ∧
    exEnvGenFail.generationFetch.ok = false ∧
    (handleChat exEnvRetrFail exBodyHi =
      { response := .json500 "Vertex retrieveContexts failed: 503 busy"
        retrievalCalled := true, genCall := none } ∧
    (handleChat exEnvGenFail exBodyHi).response =
      .json500 "Vertex generateContent failed: 500 boom") :=
  ⟨by decide, rfl, rfl, by decide, rfl,
    chat_upstream_error_500 exEnvRetrFail exEnvGenFail exBodyHi "tok" "tok"
      (by decide) rfl rfl rfl rfl rfl rfl (by decide) rfl⟩

/-- Claim C6 (code bug): the clamp `Math.max(1, Number(...))` does not yield
a number at least 1 for every environment value — a non-numeric value parses
to NaN, which propagates through the maximum, while an unset variable does
default to 4. -/
theorem topK_nan_escapes_clamp :
    vertexRagTopK JSNumber.nan = JSNumber.nan ∧
      vertexRagTopK (JSNumber.num 4) = JSNumber.num 4 := by
  refine ⟨rfl, ?_⟩
  show JSNumber.num (max 1 4) = JSNumber.num 4
  norm_num

set_option maxRecDepth 8000 in
/-- Claim C7 counterexample: the claimed plain truncation differs from the
code, which trims the 280-character slice before appending the ellipsis. -/
theorem fallback_snippet_untrimmed_counterexample :
    fallbackAnswer "q" [{ text := " a", sourceUri := "s" }] ≠
      fallbackAnswerClaimed "q" [{ text := " a", sourceUri := "s" }] := by
  decide

/-- Claim C7 (amended): for a non-empty context list, `fallbackAnswer` is the
template whose snippets are the context text truncated to at most 280
characters and trimmed of surrounding whitespace, with an ellipsis suffix. -/
theorem fallback_template_trimmed (q : String) (cs : List RetrievedContext) (h : cs ≠ []) :
    fallbackAnswer q cs = fallbackAnswerAmended q cs := by
  unfold fallbackAnswer fallbackAnswerAmended
  rw [if_neg (fun hl => h (List.length_eq_zero.mp hl))]

/-- Claim C7 witness: the amended template at a concrete context list. -/
theorem fallback_template_trimmed_witness :
    ([{ text := "Irrigate twice weekly", sourceUri := "doc1.pdf" }] : List RetrievedContext) ≠ [] ∧
    fallbackAnswer "q" [{ text := "Irrigate twice weekly", sourceUri := "doc1.pdf" }] =
      fallbackAnswerAmended "q" [{ text := "Irrigate twice weekly", sourceUri := "doc1.pdf" }] :=
  ⟨by simp, fallback_template_trimmed "q"
    [{ text := "Irrigate twice weekly", sourceUri := "doc1.pdf" }] (by simp)⟩

/-- Claim C8: whenever `onSubmit` issues a request, the post-completion state
— whatever the fetch outcome, success, failure or abort — has the loading
flag cleared and the cancellation handle released. -/
theorem submit_clears_loading_and_handle (s : SurfaceState) (uid aid : String)
    (outcome : FetchOutcome) (h : ((onSubmit s uid aid outcome).2).isSome = true) :
    (onSubmit s uid aid outcome).1.loading = false ∧
      (onSubmit s uid aid outcome).1.abortRef = none := by
  by_cases hg : jsTrim s.input = "" ∨ s.loading = true
  · exfalso
    unfold onSubmit at h
    rw [if_pos hg] at h
    simp at h
  · constructor <;>
      (unfold onSubmit; rw [if_neg hg])

/-- The chat surface state a submission witness starts from. -/
def exState : SurfaceState :=
  { messages := [{ id := "m0", role := .assistant, content := starter, sources := none }]
    input := "Hello", loading := false, abortRef := none }

/-- Claim C8 witness: a concrete successful submission clears both. -/
theorem submit_clears_loading_and_handle_witness :
    ((onSubmit exState "u1" "a1"
        (.success { answer := "Hi there", sources := ["doc1.pdf"] })).2).isSome = true ∧
    ((onSubmit exState "u1" "a1"
        (.success { answer := "Hi there", sources := ["doc1.pdf"] })).1.loading = false ∧
      (onSubmit exState "u1" "a1"
        (.success { answer := "Hi there", sources := ["doc1.pdf"] })).1.abortRef = none) :=
  ⟨rfl, submit_clears_loading_and_handle exState "u1" "a1"
    (.success { answer := "Hi there", sources := ["doc1.pdf"] }) rfl⟩

set_option maxRecDepth 8000 in
/-- Claim C9: the retrieval mapping keeps exactly the items whose text is
non-empty after trimming, trims a present sourceUri and substitutes the
literal unknown-source for an absent one — and that literal can surface in a
200 response's sources list. -/
theorem retrieval_mapping_unknown_source :
    (∀ items : List RawItem,
      mapRetrieved items =
        (items.filter (fun it => decide (0 < ((it.text.map jsTrim).getD "").length))).map
          (fun it =>
            { text := (it.text.map jsTrim).getD ""
              sourceUri := (it.sourceUri.map jsTrim).getD "unknown-source" })) ∧
    (∃ (env : Env) (body : ChatBody) (ans : String) (srcs : List String),
      (handleChat env body).response = .json200 ans srcs ∧ "unknown-source" ∈ srcs) := by
  constructor
  · intro items
    unfold mapRetrieved
    rw [filter_comm_map]
  · exact ⟨exEnvNoUri, exBodyHi, "Twice weekly.", ["unknown-source"], rfl, by simp⟩

/-- Claim C10: every 200 response of the handler carries a non-empty answer:
the no-context fallback is a fixed non-empty string and an empty generation
text is replaced by the fixed substitute. -/
theorem chat_answer_nonempty (env : Env) (body : ChatBody) (ans : String) (srcs : List String)
    (h : (handleChat env body).response = .json200 ans srcs) : ans ≠ "" := by
  unfold handleChat at h
  split at h
  · simp at h
  · split at h
    · simp at h
    · rename_i contexts heq
      split at h
      · rename_i hlen
        simp at h
        rw [← h.1]
        unfold fallbackAnswer
        rw [if_pos hlen]
        decide
      · split at h
        · simp at h
        · rename_i answer hgen
          simp at h
          rw [← h.1, generate_ok_eq hgen]
          exact answerOf_ne_empty _

set_option maxRecDepth 8000 in
/-- Claim C10 witness: a concrete 200 response has a non-empty answer. -/
theorem chat_answer_nonempty_witness :
    (handleChat exEnvOk exBodyHi).response =
      HttpResponse.json200 "Twice weekly." ["doc1.pdf"] ∧ ("Twice weekly." : String) ≠ "" :=
  ⟨rfl, chat_answer_nonempty exEnvOk exBodyHi "Twice weekly." ["doc1.pdf"] rfl⟩

end FarmersMark
